import Mathlib

/-!
Verification of the voice-call session and human-agent handoff signaling
layer of the Auto-QA-and-Coaching-Insights repository.

The definitions below are a shallow embedding of the customer voice client
embedded in src/deploy/ec2-setup.sh (the app.js served to the customer
dashboard), of the agent dashboard client src/voice_dashboard/static/voice.js,
and — where the repository ships no backend source — of the backend behaviour
described by the specification (such definitions carry a doc comment starting
with the words Modelled from the spec).

Conventions of the embedding:
* JavaScript module-level variables and fields of the browser window object
  become fields of an explicit state record.
* A non-null JavaScript object reference becomes a Bool field (true means the
  reference is set), unless the object's contents matter, in which case it
  becomes an Option or a List.
* socket.emit calls are recorded in an append-only list of emissions, and
  showToast calls in an append-only list of notices, so that theorems can
  speak about what was sent over the signaling channel and shown to the user.
* Each handler registered with socket.on, and each named function of the
  source, becomes one Lean function from state to state, translated
  line by line from the JavaScript.
-/

namespace VoiceSignaling

/-- One speaker-tagged transcript entry as appended by addVoiceTranscript and
addTransferTranscriptEntry (a DOM child with a speaker class and a text
bubble). -/
structure TranscriptEntry where
  speaker : String
  text : String
deriving DecidableEq

/-- Events the customer client emits over the signaling socket
(voiceSocket.emit calls in src/deploy/ec2-setup.sh). -/
inductive ClientEmit where
  /-- start_call with the validated name and phone. -/
  | startCall (name phone : String)
  /-- user_message with a final speech-recognition text. -/
  | userMessage (text : String)
  /-- agent_transfer_room with the generated room identifier and session id. -/
  | agentTransferRoom (roomName sessionId : String)
  /-- webrtc_offer to the accepted agent. -/
  | webrtcOffer
  /-- webrtc_ice_candidate relayed to the agent. -/
  | webrtcIceCandidate (candidate : Nat)
  /-- webrtc_hangup to the accepted agent. -/
  | webrtcHangup
  /-- call_transcript with a final transfer-phase recognition text. -/
  | callTranscript (text : String)
  /-- end_call. -/
  | endCall
deriving DecidableEq

/-- State of the customer voice client: the module-level variables of the
voice-call section of src/deploy/ec2-setup.sh (voiceSocket, voiceCallActive,
voiceRecognition, voiceTimerInterval, voiceIsMuted, voiceUserName,
voiceUserPhone) together with the window fields used by the WebRTC transfer
code (peerConnection, localStream, pendingIceCandidates, agentSocketId,
transferSessionId, transferReason, transferRecognition) and the two transcript
containers of the page. -/
structure ClientState where
  /-- voiceSocket is non-null and connected. -/
  voiceSocket : Bool
  /-- voiceCallActive flag. -/
  voiceCallActive : Bool
  /-- voiceTimerInterval is set (call-duration timer running). -/
  voiceTimer : Bool
  /-- voiceRecognition is non-null (AI-phase speech recognition running). -/
  voiceRecognition : Bool
  /-- voiceIsMuted flag. -/
  voiceIsMuted : Bool
  /-- voiceUserName module variable. -/
  voiceUserName : String
  /-- voiceUserPhone module variable. -/
  voiceUserPhone : String
  /-- The microphone stream acquired by getUserMedia in startVoiceCall was
  obtained. The source drops this stream (the .then callback ignores its
  argument), so no variable of the source holds it; the field records that
  the browser handed the page a live capture stream. -/
  micPermissionStream : Bool
  /-- Some operation called stop() on the tracks of the startVoiceCall
  stream. No line of the source does, so no operation of the model sets
  this field. -/
  micPermissionStreamStopped : Bool
  /-- window.localStream (the transfer-call microphone stream) is set. -/
  localStream : Bool
  /-- The tracks of window.localStream were stopped
  (localStream.getTracks().forEach(track.stop) in endWebRTCCall). -/
  localStreamStopped : Bool
  /-- window.peerConnection is non-null. -/
  peerConnection : Bool
  /-- peerConnection.remoteDescription is set (setRemoteDescription applied). -/
  remoteDescription : Bool
  /-- window.pendingIceCandidates queue, in arrival order. -/
  pendingIceCandidates : List Nat
  /-- Candidates passed to peerConnection.addIceCandidate, in call order. -/
  appliedIceCandidates : List Nat
  /-- window.agentSocketId. -/
  agentSocketId : Option String
  /-- window.transferSessionId. -/
  transferSessionId : Option String
  /-- window.transferReason. -/
  transferReason : Option String
  /-- window.transferRecognition is non-null. -/
  transferRecognition : Bool
  /-- The remote-agent-audio element exists. -/
  remoteAudio : Bool
  /-- window.currentJitsiApi is non-null. -/
  jitsi : Bool
  /-- Children of the voice-transcript element (AI-phase transcript). -/
  voiceTranscript : List TranscriptEntry
  /-- Children of the transfer-transcript element; none while the
  transfer-transcript-container does not exist. -/
  transferTranscript : Option (List TranscriptEntry)
  /-- Status line of the agent-details panel. -/
  agentStatusText : String
  /-- Events emitted on the signaling socket, in order. -/
  emitted : List ClientEmit
  /-- Toast notices shown to the user, in order. -/
  notices : List String
deriving DecidableEq

/-- The page as loaded: no call, no socket, empty transcripts. -/
def initClientState : ClientState where
  voiceSocket := false
  voiceCallActive := false
  voiceTimer := false
  voiceRecognition := false
  voiceIsMuted := false
  voiceUserName := ""
  voiceUserPhone := ""
  micPermissionStream := false
  micPermissionStreamStopped := false
  localStream := false
  localStreamStopped := false
  peerConnection := false
  remoteDescription := false
  pendingIceCandidates := []
  appliedIceCandidates := []
  agentSocketId := none
  transferSessionId := none
  transferReason := none
  transferRecognition := false
  remoteAudio := false
  jitsi := false
  voiceTranscript := []
  transferTranscript := none
  agentStatusText := ""
  emitted := []
  notices := []

/-- The JavaScript String.prototype.trim(): the input without its leading and
trailing whitespace. (Defined over the character list so that it evaluates
by reduction.) -/
def strTrim (s : String) : String :=
  List.asString (((s.data.dropWhile Char.isWhitespace).reverse.dropWhile
    Char.isWhitespace).reverse)

/-- addVoiceTranscript(speaker, text): appends one entry at the end of the
voice-transcript element. -/
def addVoiceTranscript (speaker text : String) (s : ClientState) : ClientState :=
  { s with voiceTranscript := s.voiceTranscript ++ [⟨speaker, text⟩] }

/-- showTransferTranscript(): creates the transfer-transcript-container with an
empty transcript list if it does not already exist. -/
def showTransferTranscript (s : ClientState) : ClientState :=
  match s.transferTranscript with
  | some _ => s
  | none => { s with transferTranscript := some [] }

/-- addTransferTranscriptEntry(speaker, text): appends one entry at the end of
the transfer-transcript element; returns unchanged if the container does not
exist. -/
def addTransferTranscriptEntry (speaker text : String) (s : ClientState) : ClientState :=
  match s.transferTranscript with
  | none => s
  | some entries => { s with transferTranscript := some (entries ++ [⟨speaker, text⟩]) }

/-- The room identifier the transfer_call handler of the customer client
builds: the template string webrtc_S_T with S the session id and T the value
of Date.now() in milliseconds. -/
def mkRoomName (sessionId : String) (nowMs : Nat) : String :=
  "webrtc_" ++ sessionId ++ "_" ++ Nat.repr nowMs

/-- The room identifier handleCallTransfer of the agent dashboard
(src/voice_dashboard/static/voice.js) builds: bsmartST with S the session id
and T the value of Date.now(). -/
def mkAgentRoomName (sessionId : String) (nowMs : Nat) : String :=
  "bsmart" ++ sessionId ++ Nat.repr nowMs

/-- The transfer_call handler: stores the session info on window, stops the
AI-phase recognition, switches the UI to the live-agent look, shows the
transfer transcript container, and emits agent_transfer_room with a room
identifier built from the session id and the current millisecond clock. -/
def onTransferCall (sessionId reason : String) (nowMs : Nat) (s : ClientState) : ClientState :=
  let s1 := { s with
    notices := s.notices ++ ["Connecting to live agent..."],
    transferSessionId := some sessionId,
    transferReason := some reason,
    voiceRecognition := false,
    agentStatusText := "Finding available agent..." }
  let s2 := showTransferTranscript s1
  { s2 with emitted := s2.emitted ++ [.agentTransferRoom (mkRoomName sessionId nowMs) sessionId] }

/-- The agent_ready_for_call handler together with a startWebRTCCall that runs
to completion before anything else happens (the fully sequential execution;
the interleaved execution is modelled separately by ReadyRace below): if
window.peerConnection is already set the event is ignored, otherwise the agent
address is recorded and the WebRTC call is started — getUserMedia resolves
(localStream set), the RTCPeerConnection is created, and the offer is sent. -/
def onAgentReadyForCall (agentSid sessionId : String) (s : ClientState) : ClientState :=
  if s.peerConnection then s
  else
    let s1 := { s with
      notices := s.notices ++ ["Agent connected! Starting voice call..."],
      agentStatusText := "Connected",
      agentSocketId := some agentSid,
      transferSessionId := some sessionId }
    { s1 with
      localStream := true,
      peerConnection := true,
      emitted := s1.emitted ++ [.webrtcOffer] }

/-- The webrtc_answer handler: if a peer connection exists and the payload has
an answer, apply the remote description, then drain the pending ICE candidate
queue in order (each entry passed to addIceCandidate) and reset the queue. -/
def onWebrtcAnswer (hasAnswer : Bool) (s : ClientState) : ClientState :=
  if s.peerConnection && hasAnswer then
    let s1 := { s with remoteDescription := true }
    if s1.pendingIceCandidates.length > 0 then
      { s1 with
        appliedIceCandidates := s1.appliedIceCandidates ++ s1.pendingIceCandidates,
        pendingIceCandidates := [] }
    else s1
  else s

/-- The webrtc_ice_candidate handler: a candidate is applied at once when the
peer connection exists and its remote description is set, and queued in
window.pendingIceCandidates otherwise; a payload without a candidate is
ignored. -/
def onWebrtcIceCandidate (candidate : Option Nat) (s : ClientState) : ClientState :=
  match candidate with
  | none => s
  | some c =>
    if s.peerConnection && s.remoteDescription then
      { s with appliedIceCandidates := s.appliedIceCandidates ++ [c] }
    else
      { s with pendingIceCandidates := s.pendingIceCandidates ++ [c] }

/-- endWebRTCCall(): stop the transfer-call stream tracks, close the peer
connection, stop the transfer recognition, remove the remote audio element,
and notify the agent with webrtc_hangup when its address is known. The
transfer-transcript container removal runs in a setTimeout and is modelled
by removeTransferContainer. -/
def endWebRTCCall (s : ClientState) : ClientState :=
  let s1 :=
    if s.localStream then
      { s with localStream := false, localStreamStopped := true }
    else s
  let s2 :=
    if s1.peerConnection then
      { s1 with peerConnection := false, remoteDescription := false }
    else s1
  let s3 :=
    if s2.transferRecognition then { s2 with transferRecognition := false } else s2
  let s4 := { s3 with remoteAudio := false, agentStatusText := "Call ended" }
  if s4.agentSocketId.isSome && s4.transferSessionId.isSome then
    { s4 with emitted := s4.emitted ++ [.webrtcHangup] }
  else s4

/-- The delayed removal of the transfer-transcript-container scheduled by
endWebRTCCall (setTimeout, 3000 ms). -/
def removeTransferContainer (s : ClientState) : ClientState :=
  { s with transferTranscript := none }

/-- The webrtc_hangup handler: endWebRTCCall plus an informational toast. -/
def onWebrtcHangup (s : ClientState) : ClientState :=
  let s1 := endWebRTCCall s
  { s1 with notices := s1.notices ++ ["Agent ended the call"] }

/-- The call_transcript handler: append the relayed entry to the transfer
transcript. -/
def onCallTranscript (speaker text : String) (s : ClientState) : ClientState :=
  addTransferTranscriptEntry speaker text s

/-- cleanupVoiceCall(): clears the active flag, disposes the Jitsi api, stops
the AI-phase recognition, clears the timer, disconnects and drops the socket,
and resets the mute UI. It touches no media stream and no WebRTC state. -/
def cleanupVoiceCall (s : ClientState) : ClientState :=
  { s with
    voiceCallActive := false,
    jitsi := false,
    voiceRecognition := false,
    voiceTimer := false,
    voiceSocket := false,
    voiceIsMuted := false }

/-- endVoiceCall(): emit end_call when the socket is connected, then clean
up. -/
def endVoiceCall (s : ClientState) : ClientState :=
  let s1 :=
    if s.voiceSocket then { s with emitted := s.emitted ++ [.endCall] } else s
  cleanupVoiceCall s1

/-- The call_started handler: mark the call active, clear the transcript and
append the greeting, start the timer, start speech recognition, toast. -/
def onCallStarted (greeting : String) (s : ClientState) : ClientState :=
  let s1 := { s with voiceCallActive := true, voiceTranscript := [] }
  let s2 := addVoiceTranscript "agent" greeting s1
  { s2 with
    voiceTimer := true,
    voiceRecognition := true,
    notices := s2.notices ++ ["Call connected!"] }

/-- String(n).padStart(2, the digit zero) as used by formatVoiceTime. -/
def padStart2 (n : Nat) : String :=
  if (Nat.repr n).length < 2 then "0" ++ Nat.repr n else Nat.repr n

/-- formatVoiceTime(seconds): MM:SS. -/
def formatVoiceTime (seconds : Nat) : String :=
  padStart2 (seconds / 60) ++ ":" ++ padStart2 (seconds % 60)

/-- The call_ended handler: cleanupVoiceCall, then toasts for the duration
and, when present, the evaluation score. -/
def onCallEnded (durationSeconds : Nat) (evaluated : Bool) (s : ClientState) : ClientState :=
  let s1 := cleanupVoiceCall s
  let s2 := { s1 with
    notices := s1.notices ++ ["Call ended. Duration: " ++ formatVoiceTime durationSeconds] }
  if evaluated then { s2 with notices := s2.notices ++ ["Call Score"] } else s2

/-- The disconnect handler: when a call is active, clean up and surface a
warning toast; otherwise do nothing. -/
def onDisconnect (s : ClientState) : ClientState :=
  if s.voiceCallActive then
    let s1 := cleanupVoiceCall s
    { s1 with notices := s1.notices ++ ["Call disconnected"] }
  else s

/-- The no_agents_available handler: show the payload message (or the default
busy message) as a warning toast and set the waiting status line. Nothing
else changes. -/
def onNoAgentsAvailable (message : Option String) (s : ClientState) : ClientState :=
  { s with
    notices := s.notices ++ [message.getD "All agents are busy. Please wait..."],
    agentStatusText := "Waiting for agent..." }

/-- startVoiceCall() followed, when every check passes, by initVoiceCall():
validate the name (non-empty after trim) and the phone (non-empty after trim
and at least 10 characters), then request the microphone; on grant, store the
trimmed name and phone, create the socket, and — once the connect event
fires — emit start_call. micGranted tells whether getUserMedia resolves and
connectFires whether the socket reaches the connect event. -/
def startVoiceCall (name phone : String) (micGranted connectFires : Bool)
    (s : ClientState) : ClientState :=
  if strTrim name = "" then
    { s with notices := s.notices ++ ["Please enter your name"] }
  else if strTrim phone = "" || phone.length < 10 then
    { s with notices := s.notices ++ ["Please enter a valid 10-digit mobile number"] }
  else if !micGranted then
    { s with notices := s.notices ++ ["Microphone access is required for voice calls"] }
  else
    let s1 := { s with
      voiceUserName := strTrim name,
      voiceUserPhone := strTrim phone,
      micPermissionStream := true,
      voiceSocket := true }
    if connectFires then
      { s1 with emitted := s1.emitted ++ [.startCall (strTrim name) (strTrim phone)] }
    else s1

/-! ## Event traces over the customer client -/

/-- The observable events the customer client reacts to, each applied by the
handler of the same name above. -/
inductive ClientOp where
  | startVoiceCall (name phone : String) (micGranted connectFires : Bool)
  | callStarted (greeting : String)
  | voiceEntry (speaker text : String)
  | transferCall (sessionId reason : String) (nowMs : Nat)
  | agentReadyForCall (agentSid sessionId : String)
  | webrtcAnswer (hasAnswer : Bool)
  | webrtcIceCandidate (candidate : Option Nat)
  | webrtcHangup
  | callTranscriptEv (speaker text : String)
  | callEnded (durationSeconds : Nat) (evaluated : Bool)
  | endVoiceCall
  | endWebRTCCall
  | removeTransferContainer
  | disconnect
  | noAgentsAvailable (message : Option String)
deriving DecidableEq

/-- Dispatch one event to its handler. -/
def applyClientOp (s : ClientState) : ClientOp → ClientState
  | .startVoiceCall name phone micGranted connectFires =>
      startVoiceCall name phone micGranted connectFires s
  | .callStarted greeting => onCallStarted greeting s
  | .voiceEntry speaker text => addVoiceTranscript speaker text s
  | .transferCall sessionId reason nowMs => onTransferCall sessionId reason nowMs s
  | .agentReadyForCall agentSid sessionId => onAgentReadyForCall agentSid sessionId s
  | .webrtcAnswer hasAnswer => onWebrtcAnswer hasAnswer s
  | .webrtcIceCandidate candidate => onWebrtcIceCandidate candidate s
  | .webrtcHangup => onWebrtcHangup s
  | .callTranscriptEv speaker text => onCallTranscript speaker text s
  | .callEnded durationSeconds evaluated => onCallEnded durationSeconds evaluated s
  | .endVoiceCall => endVoiceCall s
  | .endWebRTCCall => endWebRTCCall s
  | .removeTransferContainer => removeTransferContainer s
  | .disconnect => onDisconnect s
  | .noAgentsAvailable message => onNoAgentsAvailable message s

/-- Run a trace of events through the client, in order. -/
def runClientOps (ops : List ClientOp) (s : ClientState) : ClientState :=
  ops.foldl applyClientOp s

/-! ## Transcript-producing operations

The three functions of the customer client that touch a transcript
container, isolated so that append-only facts quantify exactly over them. -/

/-- A transcript-producing operation of the customer client. -/
inductive TranscriptOp where
  /-- addVoiceTranscript (AI-phase entry). -/
  | voice (speaker text : String)
  /-- addTransferTranscriptEntry (human-phase entry). -/
  | transfer (speaker text : String)
  /-- showTransferTranscript (create the transfer container). -/
  | showTransfer
deriving DecidableEq

/-- Apply one transcript-producing operation. -/
def applyTranscriptOp (s : ClientState) : TranscriptOp → ClientState
  | .voice speaker text => addVoiceTranscript speaker text s
  | .transfer speaker text => addTransferTranscriptEntry speaker text s
  | .showTransfer => showTransferTranscript s

/-- Run a list of transcript-producing operations, in order. -/
def runTranscriptOps (ops : List TranscriptOp) (s : ClientState) : ClientState :=
  ops.foldl applyTranscriptOp s

/-- The entries a list of transcript-producing operations carries, in
real-time arrival order. -/
def arrivalOrder (ops : List TranscriptOp) : List TranscriptEntry :=
  ops.filterMap fun
    | .voice speaker text => some ⟨speaker, text⟩
    | .transfer speaker text => some ⟨speaker, text⟩
    | .showTransfer => none

/-! ## The agent_ready_for_call race

The agent_ready_for_call handler is an async function: it checks
window.peerConnection, and only then awaits startWebRTCCall, whose first
statement awaits getUserMedia; window.peerConnection is assigned after that
await resolves. On the browser event loop a second agent_ready_for_call
event can therefore be dispatched while the first handler is suspended at
the getUserMedia await, that is, before the guard variable is assigned.
ReadyRace models exactly the variables this race touches, and readyStep the
two scheduler steps: delivery of an agent_ready_for_call event (the handler
runs synchronously up to the getUserMedia await) and resolution of one
outstanding getUserMedia promise (the continuation creates the
RTCPeerConnection, assigns window.peerConnection, and sends the offer). -/

/-- Scheduler-level state of the agent_ready_for_call handler. -/
structure ReadyRace where
  /-- window.peerConnection is assigned. -/
  peerConnection : Bool
  /-- Handler instances suspended at the getUserMedia await inside
  startWebRTCCall. -/
  pendingGetUserMedia : Nat
  /-- RTCPeerConnection constructor calls so far (Negotiation Records
  created). -/
  rtcConnectionsCreated : Nat
  /-- webrtc_offer emissions so far. -/
  offersSent : Nat
deriving DecidableEq

/-- No event handled yet. -/
def ReadyRace.init : ReadyRace :=
  { peerConnection := false, pendingGetUserMedia := 0
    rtcConnectionsCreated := 0, offersSent := 0 }

/-- One scheduler step of the race model. -/
inductive ReadyStep where
  /-- An agent_ready_for_call event is dispatched; the handler checks
  window.peerConnection and, when it is unset, enters startWebRTCCall and
  suspends at the getUserMedia await. -/
  | readyArrives
  /-- One outstanding getUserMedia promise resolves; the handler continuation
  creates the RTCPeerConnection, assigns window.peerConnection, and emits the
  offer. -/
  | getUserMediaResolves
deriving DecidableEq

/-- Apply one scheduler step. -/
def readyStep (s : ReadyRace) : ReadyStep → ReadyRace
  | .readyArrives =>
      if s.peerConnection then s
      else { s with pendingGetUserMedia := s.pendingGetUserMedia + 1 }
  | .getUserMediaResolves =>
      match s.pendingGetUserMedia with
      | 0 => s
      | n + 1 =>
          { peerConnection := true
            pendingGetUserMedia := n
            rtcConnectionsCreated := s.rtcConnectionsCreated + 1
            offersSent := s.offersSent + 1 }

/-- Run a schedule of steps, in order. -/
def runReady (steps : List ReadyStep) (s : ReadyRace) : ReadyRace :=
  steps.foldl readyStep s

/-! ## Speech-recognition result handlers -/

/-- One item of a SpeechRecognition result event: the transcript text of the
top alternative and the isFinal flag. -/
structure RecResult where
  transcript : String
  isFinal : Bool
deriving DecidableEq

/-- The texts the voiceRecognition.onresult handler of the AI phase sends to
the relay (each both appended as a customer transcript entry and emitted as
user_message): the loop walks the results from resultIndex; a final result
is sent when the socket is connected and the trimmed text is non-empty; a
non-final result only extends the local interim display string. -/
def voiceOnresult (connected : Bool) : List RecResult → List String
  | [] => []
  | r :: rs =>
    if r.isFinal then
      (if connected && strTrim r.transcript ≠ "" then [strTrim r.transcript] else [])
        ++ voiceOnresult connected rs
    else
      voiceOnresult connected rs

/-- The texts the transferRecognition.onresult handler of the human phase
sends to the relay (each both appended as a transfer transcript entry and
emitted as call_transcript): only final results with non-empty trimmed text
are sent. -/
def transferOnresult : List RecResult → List String
  | [] => []
  | r :: rs =>
    if r.isFinal then
      (if strTrim r.transcript ≠ "" then [strTrim r.transcript] else [])
        ++ transferOnresult rs
    else
      transferOnresult rs

/-! ## The agent dashboard client (src/voice_dashboard/static/voice.js) -/

/-- Events the agent dashboard client emits over its socket. -/
inductive AgentEmit where
  | startCall
  | userMessage (text : String)
  | endCall (sessionId : String)
deriving DecidableEq

/-- Module-level state of voice.js: socket session and call flags plus the
emissions. -/
structure AgentClient where
  /-- sessionId module variable. -/
  sessionId : Option String
  /-- isInCall flag. -/
  isInCall : Bool
  /-- isListening flag (recognition running). -/
  isListening : Bool
  /-- timerInterval is set. -/
  timerInterval : Bool
  /-- isMuted flag. -/
  isMuted : Bool
  /-- Events emitted on the socket, in order. -/
  emitted : List AgentEmit
deriving DecidableEq

/-- endCall() of voice.js: stop recognition when listening, clear the timer,
emit end_call when a session id is known, then reset the call state. -/
def agentEndCall (s : AgentClient) : AgentClient :=
  let s1 := if s.isListening then { s with isListening := false } else s
  let s2 := { s1 with timerInterval := false }
  let s3 :=
    match s2.sessionId with
    | some sid => { s2 with emitted := s2.emitted ++ [AgentEmit.endCall sid] }
    | none => s2
  { s3 with isInCall := false, sessionId := none, isMuted := false }

/-! ## Spec-modelled backend session -/

/-- The states of the session state machine (specification section 4.2). -/
inductive SessionPhase where
  | idle
  | connecting
  | aiActive
  | transferring
  | humanActive
  | ended
deriving DecidableEq

/-- Modelled from the spec: the backend-owned session record. The backend
source is not part of the repository (only its clients are under src), so
this follows the specification words: the session holds its current state,
and ended is terminal. -/
structure BackendSession where
  phase : SessionPhase
  /-- call_ended notices emitted for this session. -/
  callEndedNotices : Nat
deriving DecidableEq

/-- Modelled from the spec: the backend processing of one end_call event —
a transition attempted from ended is a no-op, any other state moves to
ended and one call_ended notice is emitted. -/
def processEndCall (b : BackendSession) : BackendSession :=
  if b.phase = .ended then b
  else { phase := .ended, callEndedNotices := b.callEndedNotices + 1 }

/-! ## Transfer attempts -/

/-- One transfer attempt as observed by the customer client: the session it
belongs to, the value Date.now() returns when the transfer_call handler
runs, and an index distinguishing distinct attempts (two attempts are
distinct events even when session and clock agree). -/
structure TransferAttempt where
  sessionId : String
  nowMs : Nat
  attemptIndex : Nat
deriving DecidableEq

/-- The room identifier an attempt generates (the customer client template). -/
def TransferAttempt.roomName (a : TransferAttempt) : String :=
  mkRoomName a.sessionId a.nowMs

/-! ## Decoding decimal digit strings

Date.now() is interpolated into the room-identifier template as its decimal
representation, which the embedding renders as Nat.repr. The decoder below
inverts Nat.repr, which gives its injectivity and with it the freshness facts
about room identifiers. -/

/-- The value of a decimal digit character produced by Nat.digitChar. -/
def digitVal (c : Char) : Nat :=
  if c = '0' then 0 else
  if c = '1' then 1 else
  if c = '2' then 2 else
  if c = '3' then 3 else
  if c = '4' then 4 else
  if c = '5' then 5 else
  if c = '6' then 6 else
  if c = '7' then 7 else
  if c = '8' then 8 else
  if c = '9' then 9 else 0

/-- Fold a digit-character list into the number it denotes, starting from an
accumulated high part. -/
def decDigitsVal (a : Nat) (ds : List Char) : Nat :=
  ds.foldl (fun acc c => acc * 10 + digitVal c) a

/-! ## Concrete traces used as counterexample inputs -/

/-- A concrete interleaving of transcript-producing operations: an AI-phase
entry, then the transfer container opens, a human-phase entry arrives, and
another AI-phase entry follows. -/
def c3ExampleOps : List TranscriptOp :=
  [TranscriptOp.voice "agent" "a", TranscriptOp.showTransfer,
   TranscriptOp.transfer "agent" "b", TranscriptOp.voice "agent" "c"]

/-- A concrete session that starts a call and ends it normally through
endVoiceCall. -/
def c6NormalEndTrace : List ClientOp :=
  [ClientOp.startVoiceCall "Alice" "9876543210" true true,
   ClientOp.callStarted "Hello",
   ClientOp.endVoiceCall]

/-- A concrete session that is transferred, reaches a live WebRTC call, and
is then ended by the backend with call_ended (the cleanupVoiceCall path). -/
def c6ServerEndTrace : List ClientOp :=
  [ClientOp.startVoiceCall "Alice" "9876543210" true true,
   ClientOp.callStarted "Hello",
   ClientOp.transferCall "sess1" "customer_request" 5,
   ClientOp.agentReadyForCall "agentSid1" "sess1",
   ClientOp.callEnded 42 false]

/-! # Theorems

Helper lemmas first, then one theorem per claim (with its witness or
counterexample where required). -/

/-! ## Helper lemmas on decimal representations -/

theorem digitVal_digitChar (m : Nat) (h : m < 10) :
    digitVal (Nat.digitChar m) = m := by
  interval_cases m <;> decide

theorem decDigitsVal_cons (a : Nat) (c : Char) (ds : List Char) :
    decDigitsVal a (c :: ds) = decDigitsVal (a * 10 + digitVal c) ds := rfl

theorem decDigitsVal_toDigitsCore :
    ∀ (fuel n a : Nat) (ds : List Char), n < 10 ^ (fuel + 1) →
    decDigitsVal a (Nat.toDigitsCore 10 (fuel + 1) n ds)
      = decDigitsVal (a * 10 ^ (Nat.log 10 n + 1) + n) ds := by
  intro fuel
  induction fuel with
  | zero =>
    intro n a ds h
    have hn : n < 10 := by simpa using h
    have hdiv : n / 10 = 0 := by omega
    have hlog : Nat.log 10 n = 0 := Nat.log_eq_zero_iff.mpr (Or.inl hn)
    simp only [Nat.toDigitsCore, hdiv, if_true]
    rw [decDigitsVal_cons, digitVal_digitChar (n % 10) (by omega), hlog]
    have hmod : n % 10 = n := by omega
    rw [hmod]
    norm_num
  | succ fuel ih =>
    intro n a ds h
    by_cases hdiv : n / 10 = 0
    · have hn : n < 10 := by omega
      have hlog : Nat.log 10 n = 0 := Nat.log_eq_zero_iff.mpr (Or.inl hn)
      simp only [Nat.toDigitsCore, hdiv, if_true]
      rw [decDigitsVal_cons, digitVal_digitChar (n % 10) (by omega), hlog]
      have hmod : n % 10 = n := by omega
      rw [hmod]
      norm_num
    · have hge : 10 ≤ n := by omega
      have hlt : n / 10 < 10 ^ (fuel + 1) := by
        rw [Nat.div_lt_iff_lt_mul (by norm_num : 0 < 10)]
        calc n < 10 ^ (fuel + 1 + 1) := h
          _ = 10 ^ (fuel + 1) * 10 := by ring
      have hstep : Nat.toDigitsCore 10 (fuel + 1 + 1) n ds
          = Nat.toDigitsCore 10 (fuel + 1) (n / 10) (Nat.digitChar (n % 10) :: ds) := by
        simp only [Nat.toDigitsCore, hdiv, if_false]
      rw [hstep, ih (n / 10) a (Nat.digitChar (n % 10) :: ds) hlt, decDigitsVal_cons,
        digitVal_digitChar (n % 10) (by omega)]
      have hlogpos : 0 < Nat.log 10 n := Nat.log_pos (by norm_num) hge
      have hlog : Nat.log 10 (n / 10) = Nat.log 10 n - 1 := Nat.log_div_base 10 n
      congr 1
      rw [hlog]
      have hx : Nat.log 10 n - 1 + 1 = Nat.log 10 n := by omega
      rw [hx]
      have hnm : n / 10 * 10 + n % 10 = n := by omega
      calc (a * 10 ^ Nat.log 10 n + n / 10) * 10 + n % 10
          = a * (10 ^ Nat.log 10 n * 10) + (n / 10 * 10 + n % 10) := by ring
        _ = a * 10 ^ (Nat.log 10 n + 1) + n := by rw [hnm, pow_succ]

theorem decDigitsVal_toDigits (n : Nat) :
    decDigitsVal 0 (Nat.toDigits 10 n) = n := by
  have h : n < 10 ^ (n + 1) := by
    calc n < 2 ^ n := Nat.lt_two_pow n
      _ ≤ 10 ^ n := Nat.pow_le_pow_left (by norm_num) n
      _ ≤ 10 ^ (n + 1) := Nat.pow_le_pow_right (by norm_num) (Nat.le_succ n)
  have hmain := decDigitsVal_toDigitsCore n n 0 [] h
  simpa [Nat.toDigits, decDigitsVal] using hmain

theorem natRepr_injective {m n : Nat} (h : Nat.repr m = Nat.repr n) : m = n := by
  have hdata : Nat.toDigits 10 m = Nat.toDigits 10 n := congrArg String.data h
  calc m = decDigitsVal 0 (Nat.toDigits 10 m) := (decDigitsVal_toDigits m).symm
    _ = decDigitsVal 0 (Nat.toDigits 10 n) := by rw [hdata]
    _ = n := decDigitsVal_toDigits n

theorem str_append_data (a b : String) : (a ++ b).data = a.data ++ b.data := rfl

/-! ## Claim C1 -/

/-- Claim C1 (refuted; the code contradicts its own dedup intent): the
first-accept-wins guard of the agent_ready_for_call handler reads
window.peerConnection before the getUserMedia await and assigns it only
after, so two ready events arriving while the first setup is still pending
create two RTCPeerConnection objects and send two offers; when each setup
completes before the next event arrives, the guard does hold and only one
connection is created. -/
theorem c1_first_accept_race :
    (runReady
        [ReadyStep.readyArrives, ReadyStep.readyArrives,
         ReadyStep.getUserMediaResolves, ReadyStep.getUserMediaResolves]
        ReadyRace.init).rtcConnectionsCreated = 2
    ∧ (runReady
        [ReadyStep.readyArrives, ReadyStep.readyArrives,
         ReadyStep.getUserMediaResolves, ReadyStep.getUserMediaResolves]
        ReadyRace.init).offersSent = 2
    ∧ (runReady
        [ReadyStep.readyArrives, ReadyStep.getUserMediaResolves,
         ReadyStep.readyArrives, ReadyStep.getUserMediaResolves]
        ReadyRace.init).rtcConnectionsCreated = 1 := by
  decide

/-! ## Claim C2 -/

theorem ice_queue_aux :
    ∀ (cs : List Nat) (s : ClientState), s.remoteDescription = false →
    runClientOps (cs.map fun c => ClientOp.webrtcIceCandidate (some c)) s
      = { s with pendingIceCandidates := s.pendingIceCandidates ++ cs } := by
  intro cs
  induction cs with
  | nil => intro s h; simp [runClientOps]
  | cons c cs ih =>
    intro s h
    have hstep : applyClientOp s (ClientOp.webrtcIceCandidate (some c))
        = { s with pendingIceCandidates := s.pendingIceCandidates ++ [c] } := by
      simp [applyClientOp, onWebrtcIceCandidate, h]
    have hrest := ih { s with pendingIceCandidates := s.pendingIceCandidates ++ [c] }
      (by simp [h])
    simp only [runClientOps, List.foldl] at hrest ⊢
    simp only [List.map, List.foldl, hstep, hrest]
    simp

/-- Claim C2: ICE candidates that arrive before the remote description is
set are all queued, and directly after the webrtc_answer remote description
is applied every queued candidate is passed to addIceCandidate exactly once,
in arrival order, leaving the queue empty — no candidate is dropped. -/
theorem c2_ice_candidates_buffered_and_flushed (cs : List Nat) (s : ClientState)
    (hpc : s.peerConnection = true) (hrd : s.remoteDescription = false)
    (hq : s.pendingIceCandidates = []) :
    (onWebrtcAnswer true
        (runClientOps (cs.map fun c => ClientOp.webrtcIceCandidate (some c)) s)).appliedIceCandidates
      = s.appliedIceCandidates ++ cs
    ∧ (onWebrtcAnswer true
        (runClientOps (cs.map fun c => ClientOp.webrtcIceCandidate (some c)) s)).pendingIceCandidates
      = [] := by
  rw [ice_queue_aux cs s hrd]
  rcases cs with _ | ⟨c, cs⟩ <;> simp [onWebrtcAnswer, hpc, hq]

/-- Witness for claim C2 at a concrete run: three candidates arrive before
the answer and are applied in order. -/
theorem c2_ice_candidates_buffered_and_flushed_witness :
    (onWebrtcAnswer true
        (runClientOps ([1, 2, 3].map fun c => ClientOp.webrtcIceCandidate (some c))
          { initClientState with peerConnection := true })).appliedIceCandidates
      = [1, 2, 3]
    ∧ (onWebrtcAnswer true
        (runClientOps ([1, 2, 3].map fun c => ClientOp.webrtcIceCandidate (some c))
          { initClientState with peerConnection := true })).pendingIceCandidates
      = [] := by
  have h := c2_ice_candidates_buffered_and_flushed [1, 2, 3]
    { initClientState with peerConnection := true } rfl rfl rfl
  simpa using h

/-! ## Claim C3 -/

theorem transcriptStepMonotone (op : TranscriptOp) (s : ClientState) :
    s.voiceTranscript <+: (applyTranscriptOp s op).voiceTranscript
    ∧ s.transferTranscript.getD [] <+: (applyTranscriptOp s op).transferTranscript.getD [] := by
  cases op with
  | voice speaker text =>
      simp [applyTranscriptOp, addVoiceTranscript]
  | transfer speaker text =>
      cases h : s.transferTranscript <;>
        simp [applyTranscriptOp, addTransferTranscriptEntry, h]
  | showTransfer =>
      cases h : s.transferTranscript <;>
        simp [applyTranscriptOp, showTransferTranscript, h]

theorem runTranscriptOps_monotone :
    ∀ (ops : List TranscriptOp) (s : ClientState),
    s.voiceTranscript <+: (runTranscriptOps ops s).voiceTranscript
    ∧ s.transferTranscript.getD [] <+: (runTranscriptOps ops s).transferTranscript.getD [] := by
  intro ops
  induction ops with
  | nil => intro s; simp [runTranscriptOps]
  | cons op ops ih =>
    intro s
    have h1 := transcriptStepMonotone op s
    have h2 := ih (applyTranscriptOp s op)
    simp only [runTranscriptOps, List.foldl] at h2 ⊢
    exact ⟨h1.1.trans h2.1, h1.2.trans h2.2⟩

/-- Claim C3 counterexample: running a concrete interleaving of AI-phase and
human-phase appends, the human-phase entry never reaches the AI-phase
sequence, and neither concatenation of the two sequences equals the
real-time arrival order — the two phases do not share one per-session
sequence. -/
theorem c3_shared_sequence_counterexample :
    (runTranscriptOps c3ExampleOps initClientState).voiceTranscript
        ++ (runTranscriptOps c3ExampleOps initClientState).transferTranscript.getD []
      ≠ arrivalOrder c3ExampleOps
    ∧ (runTranscriptOps c3ExampleOps initClientState).transferTranscript.getD []
        ++ (runTranscriptOps c3ExampleOps initClientState).voiceTranscript
      ≠ arrivalOrder c3ExampleOps
    ∧ (⟨"agent", "b"⟩ : TranscriptEntry)
        ∉ (runTranscriptOps c3ExampleOps initClientState).voiceTranscript
    ∧ (⟨"agent", "b"⟩ : TranscriptEntry) ∈ arrivalOrder c3ExampleOps := by
  decide

/-- Claim C3 (amended): every transcript-producing operation of the client
only appends at the end — over any sequence of such operations each of the
two transcript sequences grows monotonically, nothing is removed or
reordered — but AI-phase entries are appended to the voice transcript and
human-phase entries to the separate transfer transcript, so arrival order
is preserved within each phase rather than across one shared sequence. -/
theorem c3_transcripts_append_only :
    ∀ (ops : List TranscriptOp) (s : ClientState),
      (s.voiceTranscript <+: (runTranscriptOps ops s).voiceTranscript
        ∧ s.transferTranscript.getD [] <+: (runTranscriptOps ops s).transferTranscript.getD [])
      ∧ ∀ speaker text,
          (addVoiceTranscript speaker text s).voiceTranscript
            = s.voiceTranscript ++ [⟨speaker, text⟩]
          ∧ (addVoiceTranscript speaker text s).transferTranscript = s.transferTranscript
          ∧ (addTransferTranscriptEntry speaker text s).voiceTranscript = s.voiceTranscript
          ∧ (addTransferTranscriptEntry speaker text s).transferTranscript
            = s.transferTranscript.map fun entries => entries ++ [⟨speaker, text⟩] := by
  intro ops s
  refine ⟨runTranscriptOps_monotone ops s, ?_⟩
  intro speaker text
  refine ⟨rfl, rfl, ?_, ?_⟩ <;>
    cases h : s.transferTranscript <;> simp [addTransferTranscriptEntry, h]

/-! ## Claim C4 -/

/-- Claim C4: ending a call is idempotent. Invoking endCall twice emits
end_call exactly once (the second invocation finds sessionId cleared and
emits nothing, and changes no state), and the backend session — modelled
from the spec, its source not being in the repository — performs one
terminal transition with one call_ended notice, a second end_call being a
no-op from the ended state. -/
theorem c4_end_call_idempotent (s : AgentClient) (sid : String) (b : BackendSession)
    (hsid : s.sessionId = some sid) (hb : b.phase ≠ SessionPhase.ended) :
    (agentEndCall (agentEndCall s)).emitted = s.emitted ++ [AgentEmit.endCall sid]
    ∧ agentEndCall (agentEndCall s) = agentEndCall s
    ∧ (processEndCall b).phase = SessionPhase.ended
    ∧ (processEndCall b).callEndedNotices = b.callEndedNotices + 1
    ∧ processEndCall (processEndCall b) = processEndCall b := by
  refine ⟨?_, ?_, ?_, ?_, ?_⟩
  · by_cases hL : s.isListening <;> simp [agentEndCall, hsid, hL]
  · by_cases hL : s.isListening <;> simp [agentEndCall, hsid, hL]
  · simp [processEndCall, hb]
  · simp [processEndCall, hb]
  · simp [processEndCall, hb]

/-- Witness for claim C4 at a concrete in-call client state and an
ai_active backend session. -/
theorem c4_end_call_idempotent_witness :
    (agentEndCall (agentEndCall
        ⟨some "s1", true, true, true, false, []⟩)).emitted
      = ([] : List AgentEmit) ++ [AgentEmit.endCall "s1"]
    ∧ agentEndCall (agentEndCall ⟨some "s1", true, true, true, false, []⟩)
      = agentEndCall ⟨some "s1", true, true, true, false, []⟩
    ∧ (processEndCall ⟨SessionPhase.aiActive, 0⟩).phase = SessionPhase.ended
    ∧ (processEndCall ⟨SessionPhase.aiActive, 0⟩).callEndedNotices = 0 + 1
    ∧ processEndCall (processEndCall ⟨SessionPhase.aiActive, 0⟩)
      = processEndCall ⟨SessionPhase.aiActive, 0⟩ :=
  c4_end_call_idempotent ⟨some "s1", true, true, true, false, []⟩ "s1"
    ⟨SessionPhase.aiActive, 0⟩ rfl (by decide)

/-! ## Claim C5 -/

theorem voiceOnresult_nonfinal_empty (connected : Bool) :
    ∀ results : List RecResult,
    voiceOnresult connected (results.filter fun r => !r.isFinal) = [] := by
  intro results
  induction results with
  | nil => rfl
  | cons r rs ih =>
    by_cases hf : r.isFinal <;> simp [List.filter_cons, hf, voiceOnresult, ih]

theorem voiceOnresult_filter_final (connected : Bool) :
    ∀ results : List RecResult,
    voiceOnresult connected results
      = voiceOnresult connected (results.filter fun r => r.isFinal) := by
  intro results
  induction results with
  | nil => rfl
  | cons r rs ih =>
    by_cases hf : r.isFinal <;> simp [List.filter_cons, hf, voiceOnresult, ih]

theorem transferOnresult_nonfinal_empty :
    ∀ results : List RecResult,
    transferOnresult (results.filter fun r => !r.isFinal) = [] := by
  intro results
  induction results with
  | nil => rfl
  | cons r rs ih =>
    by_cases hf : r.isFinal <;> simp [List.filter_cons, hf, transferOnresult, ih]

theorem transferOnresult_filter_final :
    ∀ results : List RecResult,
    transferOnresult results
      = transferOnresult (results.filter fun r => r.isFinal) := by
  intro results
  induction results with
  | nil => rfl
  | cons r rs ih =>
    by_cases hf : r.isFinal <;> simp [List.filter_cons, hf, transferOnresult, ih]

/-- Claim C5: in both recognition handlers, only results marked final
produce relay emissions (user_message in the AI phase, call_transcript in
the transfer phase): a result batch of interim results alone emits nothing,
and every batch emits exactly what its final results emit. -/
theorem c5_only_final_results_emitted (connected : Bool) (results : List RecResult) :
    voiceOnresult connected (results.filter fun r => !r.isFinal) = []
    ∧ voiceOnresult connected results
        = voiceOnresult connected (results.filter fun r => r.isFinal)
    ∧ transferOnresult (results.filter fun r => !r.isFinal) = []
    ∧ transferOnresult results
        = transferOnresult (results.filter fun r => r.isFinal) :=
  ⟨voiceOnresult_nonfinal_empty connected results,
   voiceOnresult_filter_final connected results,
   transferOnresult_nonfinal_empty results,
   transferOnresult_filter_final results⟩

/-! ## Claim C6 -/

theorem applyClientOp_mic_stopped (op : ClientOp) (s : ClientState) :
    (applyClientOp s op).micPermissionStreamStopped = s.micPermissionStreamStopped := by
  cases op with
  | startVoiceCall name phone micGranted connectFires =>
      simp only [applyClientOp, startVoiceCall]
      split_ifs <;> rfl
  | callStarted greeting => rfl
  | voiceEntry speaker text => rfl
  | transferCall sessionId reason nowMs =>
      simp only [applyClientOp, onTransferCall, showTransferTranscript]
      rcases s.transferTranscript with _ | t <;> rfl
  | agentReadyForCall agentSid sessionId =>
      simp only [applyClientOp, onAgentReadyForCall]
      split_ifs <;> rfl
  | webrtcAnswer hasAnswer =>
      simp only [applyClientOp, onWebrtcAnswer]
      split_ifs <;> rfl
  | webrtcIceCandidate candidate =>
      rcases candidate with _ | c
      · rfl
      · simp only [applyClientOp, onWebrtcIceCandidate]
        split_ifs <;> rfl
  | webrtcHangup =>
      simp only [applyClientOp, onWebrtcHangup, endWebRTCCall]
      split_ifs <;> rfl
  | callTranscriptEv speaker text =>
      simp only [applyClientOp, onCallTranscript, addTransferTranscriptEntry]
      rcases s.transferTranscript with _ | t <;> rfl
  | callEnded durationSeconds evaluated =>
      simp only [applyClientOp, onCallEnded, cleanupVoiceCall]
      split_ifs <;> rfl
  | endVoiceCall =>
      simp only [applyClientOp, endVoiceCall, cleanupVoiceCall]
      split_ifs <;> rfl
  | endWebRTCCall =>
      simp only [applyClientOp, endWebRTCCall]
      split_ifs <;> rfl
  | removeTransferContainer => rfl
  | disconnect =>
      simp only [applyClientOp, onDisconnect, cleanupVoiceCall]
      split_ifs <;> rfl
  | noAgentsAvailable message => rfl

theorem runClientOps_mic_stopped :
    ∀ (ops : List ClientOp) (s : ClientState),
    (runClientOps ops s).micPermissionStreamStopped = s.micPermissionStreamStopped := by
  intro ops
  induction ops with
  | nil => intro s; rfl
  | cons op ops ih =>
    intro s
    have h2 := ih (applyClientOp s op)
    simp only [runClientOps, List.foldl] at h2 ⊢
    rw [h2, applyClientOp_mic_stopped]

/-- Claim C6 counterexample: in a concrete session ended normally through
endVoiceCall the AI-phase microphone stream is acquired and its tracks are
never stopped, and in a concrete transferred session ended by the backend
call_ended (the cleanupVoiceCall path) the WebRTC transfer stream is still
live and unstopped even though the call is over. -/
theorem c6_unreleased_microphone_counterexample :
    (runClientOps c6NormalEndTrace initClientState).micPermissionStream = true
    ∧ (runClientOps c6NormalEndTrace initClientState).micPermissionStreamStopped = false
    ∧ (runClientOps c6NormalEndTrace initClientState).voiceCallActive = false
    ∧ (runClientOps c6ServerEndTrace initClientState).localStream = true
    ∧ (runClientOps c6ServerEndTrace initClientState).localStreamStopped = false
    ∧ (runClientOps c6ServerEndTrace initClientState).voiceCallActive = false := by
  decide

/-- Claim C6 (amended): only the WebRTC transfer stream is released, and
only by endWebRTCCall (peer hangup, transport failure, or the explicit
transfer end button): endWebRTCCall clears the stream and marks its tracks
stopped, while no client operation whatsoever stops the AI-phase stream
acquired at call start, and cleanupVoiceCall (the normal-end, call_ended and
disconnect path) stops no media tracks at all. -/
theorem c6_media_release_amended (ops : List ClientOp) (s : ClientState) :
    (runClientOps ops s).micPermissionStreamStopped = s.micPermissionStreamStopped
    ∧ (endWebRTCCall s).localStream = false
    ∧ (endWebRTCCall s).localStreamStopped = (s.localStreamStopped || s.localStream)
    ∧ (cleanupVoiceCall s).localStream = s.localStream
    ∧ (cleanupVoiceCall s).localStreamStopped = s.localStreamStopped
    ∧ (cleanupVoiceCall s).micPermissionStreamStopped = s.micPermissionStreamStopped := by
  refine ⟨runClientOps_mic_stopped ops s, ?_, ?_, rfl, rfl, rfl⟩
  · simp only [endWebRTCCall]
    split_ifs <;> simp_all
  · simp only [endWebRTCCall]
    split_ifs <;> simp_all

/-! ## Claim C7 -/

/-- Claim C7 counterexample: two distinct transfer attempts for the same
session in the same millisecond produce the same room identifier, and in
the agent-dashboard variant (which interpolates without separators) even
attempts with different sessions and different clock values can collide. -/
theorem c7_room_identifier_collision :
    (⟨"sess42", 1700000000000, 0⟩ : TransferAttempt) ≠ ⟨"sess42", 1700000000000, 1⟩
    ∧ TransferAttempt.roomName ⟨"sess42", 1700000000000, 0⟩
        = TransferAttempt.roomName ⟨"sess42", 1700000000000, 1⟩
    ∧ mkAgentRoomName "1" 23 = mkAgentRoomName "12" 3 := by
  decide

/-- Claim C7 (amended): the room identifier is a pure function of the
session id and the millisecond clock, so freshness holds exactly up to the
clock — two transfer attempts for the same session whose Date.now() values
differ produce distinct identifiers (while same-millisecond attempts
collide, as the counterexample shows). -/
theorem c7_room_identifier_fresh_amended (sessionId : String) (t1 t2 : Nat)
    (h : t1 ≠ t2) : mkRoomName sessionId t1 ≠ mkRoomName sessionId t2 := by
  intro he
  apply h
  have hdata := congrArg String.data he
  simp only [mkRoomName, str_append_data, List.append_assoc] at hdata
  have h1 := List.append_cancel_left hdata
  have h2 := List.append_cancel_left h1
  have h3 := List.append_cancel_left h2
  calc t1 = decDigitsVal 0 (Nat.toDigits 10 t1) := (decDigitsVal_toDigits t1).symm
    _ = decDigitsVal 0 (Nat.toDigits 10 t2) := by
          rw [show Nat.toDigits 10 t1 = Nat.toDigits 10 t2 from h3]
    _ = t2 := decDigitsVal_toDigits t2

/-- Witness for the amended claim C7 at concrete clock values. -/
theorem c7_room_identifier_fresh_amended_witness :
    mkRoomName "sess42" 1 ≠ mkRoomName "sess42" 2 :=
  c7_room_identifier_fresh_amended "sess42" 1 2 (by decide)

/-! ## Claim C8 -/

/-- Claim C8: an unexpected socket disconnect during an active call cleans
the call up (active flag, recognition, timer and socket all cleared) and
surfaces exactly one warning notice; with no active call the disconnect
handler changes nothing. -/
theorem c8_disconnect_ends_active_call (s : ClientState) :
    (s.voiceCallActive = true →
      (onDisconnect s).voiceCallActive = false
      ∧ (onDisconnect s).voiceSocket = false
      ∧ (onDisconnect s).voiceRecognition = false
      ∧ (onDisconnect s).voiceTimer = false
      ∧ (onDisconnect s).notices = s.notices ++ ["Call disconnected"])
    ∧ (s.voiceCallActive = false → onDisconnect s = s) := by
  constructor <;> intro h <;> simp [onDisconnect, cleanupVoiceCall, h]

/-- Witness for claim C8: a concrete active call is torn down with the
warning notice, and the idle page is untouched. -/
theorem c8_disconnect_ends_active_call_witness :
    ((onDisconnect { initClientState with
        voiceCallActive := true, voiceSocket := true,
        voiceRecognition := true, voiceTimer := true }).voiceCallActive = false
      ∧ (onDisconnect { initClientState with
        voiceCallActive := true, voiceSocket := true,
        voiceRecognition := true, voiceTimer := true }).voiceSocket = false
      ∧ (onDisconnect { initClientState with
        voiceCallActive := true, voiceSocket := true,
        voiceRecognition := true, voiceTimer := true }).voiceRecognition = false
      ∧ (onDisconnect { initClientState with
        voiceCallActive := true, voiceSocket := true,
        voiceRecognition := true, voiceTimer := true }).voiceTimer = false
      ∧ (onDisconnect { initClientState with
        voiceCallActive := true, voiceSocket := true,
        voiceRecognition := true, voiceTimer := true }).notices
          = initClientState.notices ++ ["Call disconnected"])
    ∧ onDisconnect initClientState = initClientState :=
  ⟨(c8_disconnect_ends_active_call { initClientState with
      voiceCallActive := true, voiceSocket := true,
      voiceRecognition := true, voiceTimer := true }).1 rfl,
   (c8_disconnect_ends_active_call initClientState).2 rfl⟩

/-! ## Claim C9 -/

/-- Claim C9: the no_agents_available handler appends exactly one
user-visible notice and updates the waiting status line; every piece of
session and call state — active flag, socket, recognition, timer, streams,
peer connection, candidate queues, transfer bookkeeping, transcripts and
emissions — is left unchanged, so the session keeps waiting. -/
theorem c9_no_agents_keeps_session (message : Option String) (s : ClientState) :
    (onNoAgentsAvailable message s).voiceCallActive = s.voiceCallActive
    ∧ (onNoAgentsAvailable message s).voiceSocket = s.voiceSocket
    ∧ (onNoAgentsAvailable message s).voiceRecognition = s.voiceRecognition
    ∧ (onNoAgentsAvailable message s).voiceTimer = s.voiceTimer
    ∧ (onNoAgentsAvailable message s).micPermissionStream = s.micPermissionStream
    ∧ (onNoAgentsAvailable message s).localStream = s.localStream
    ∧ (onNoAgentsAvailable message s).peerConnection = s.peerConnection
    ∧ (onNoAgentsAvailable message s).remoteDescription = s.remoteDescription
    ∧ (onNoAgentsAvailable message s).pendingIceCandidates = s.pendingIceCandidates
    ∧ (onNoAgentsAvailable message s).appliedIceCandidates = s.appliedIceCandidates
    ∧ (onNoAgentsAvailable message s).agentSocketId = s.agentSocketId
    ∧ (onNoAgentsAvailable message s).transferSessionId = s.transferSessionId
    ∧ (onNoAgentsAvailable message s).voiceTranscript = s.voiceTranscript
    ∧ (onNoAgentsAvailable message s).transferTranscript = s.transferTranscript
    ∧ (onNoAgentsAvailable message s).emitted = s.emitted
    ∧ (onNoAgentsAvailable message s).notices
        = s.notices ++ [message.getD "All agents are busy. Please wait..."] := by
  simp [onNoAgentsAvailable]

/-! ## Claim C10 -/

/-- Claim C10: start_call is emitted only when the trimmed name is
non-empty, the phone is non-empty and at least 10 characters long, and the
microphone was granted; when any of these checks fails, no socket is
created and nothing is emitted. -/
theorem c10_start_call_preconditions (name phone : String)
    (micGranted connectFires : Bool) (s : ClientState) :
    ((startVoiceCall name phone micGranted connectFires s).emitted ≠ s.emitted →
      strTrim name ≠ "" ∧ phone ≠ "" ∧ 10 ≤ phone.length ∧ micGranted = true)
    ∧ (¬(strTrim name ≠ "" ∧ phone ≠ "" ∧ 10 ≤ phone.length ∧ micGranted = true) →
      (startVoiceCall name phone micGranted connectFires s).voiceSocket = s.voiceSocket
      ∧ (startVoiceCall name phone micGranted connectFires s).emitted = s.emitted) := by
  simp only [startVoiceCall]
  split_ifs with h1 h2 h3 h4
  · exact ⟨fun hne => absurd rfl hne, fun _ => ⟨rfl, rfl⟩⟩
  · exact ⟨fun hne => absurd rfl hne, fun _ => ⟨rfl, rfl⟩⟩
  · exact ⟨fun hne => absurd rfl hne, fun _ => ⟨rfl, rfl⟩⟩
  · have hchecks : strTrim name ≠ "" ∧ phone ≠ "" ∧ 10 ≤ phone.length
        ∧ micGranted = true := by
      simp only [Bool.or_eq_true, decide_eq_true_eq, not_or] at h2
      obtain ⟨htrim, hlen⟩ := h2
      refine ⟨h1, ?_, by omega, by simpa using h3⟩
      intro hempty
      rw [hempty] at htrim
      exact htrim rfl
    exact ⟨fun _ => hchecks, fun hcon => absurd hchecks hcon⟩
  · have hchecks : strTrim name ≠ "" ∧ phone ≠ "" ∧ 10 ≤ phone.length
        ∧ micGranted = true := by
      simp only [Bool.or_eq_true, decide_eq_true_eq, not_or] at h2
      obtain ⟨htrim, hlen⟩ := h2
      refine ⟨h1, ?_, by omega, by simpa using h3⟩
      intro hempty
      rw [hempty] at htrim
      exact htrim rfl
    exact ⟨fun hne => absurd rfl hne, fun hcon => absurd hchecks hcon⟩

/-- Witness for claim C10: the checks hold for a concrete accepted input,
and a concrete empty name creates no socket and emits nothing. -/
theorem c10_start_call_preconditions_witness :
    (strTrim "Alice" ≠ "" ∧ "9876543210" ≠ ""
      ∧ 10 ≤ "9876543210".length ∧ true = true)
    ∧ (startVoiceCall "" "9876543210" true true initClientState).voiceSocket
        = initClientState.voiceSocket
    ∧ (startVoiceCall "" "9876543210" true true initClientState).emitted
        = initClientState.emitted :=
  ⟨(c10_start_call_preconditions "Alice" "9876543210" true true initClientState).1
      (by decide),
   (c10_start_call_preconditions "" "9876543210" true true initClientState).2
      (by decide)⟩

end VoiceSignaling
